import Mathlib

/-!
Verification development for the SaveTogether community-savings application
(`app.py`, `database.py`).  The five relational tables (users, groups,
group_members, contributions, notifications) are embedded as lists of records;
SQL `SELECT ... LIMIT 1`/`fetchone` becomes `List.find?`, `INSERT` becomes list
append, `UPDATE ... WHERE` becomes a conditional `List.map`, and each Flask
request handler becomes a pure function from a database state (plus the request
parameters and the authenticated user id) to a new database state and a
response.  Decimal amounts are embedded as rationals; the separate binary64
model near the end captures the Python `float` arithmetic actually used by
`database.py` when summing amounts.  Display-only columns (timestamps,
categories, deadlines, avatar paths) and the users table are omitted: no
handler modelled here branches on them.  Human-readable message strings are
embedded as constructor tags (one tag per distinct message template in the
source), since only their identity matters to the handlers.
-/

set_option maxRecDepth 8000

/-- Status column of the `group_members` table (`app.py` schema: values
`active`, `pending`, `rejected`). -/
inductive MemberStatus
  | active
  | pending
  | rejected
deriving DecidableEq

/-- Status column of the `contributions` table (`app.py` schema: values
`pending`, `approved`, `rejected`). -/
inductive ContribStatus
  | pending
  | approved
  | rejected
deriving DecidableEq

/-- Row of the `groups` table (`app.py` `init_db`): id, name, target_amount,
created_by, invite_code.  Description, category, deadline and created_at are
display-only and omitted. -/
structure SavingsGroup where
  id : Nat
  name : String
  targetAmount : ℚ
  createdBy : Nat
  inviteCode : String
deriving DecidableEq

/-- Row of the `group_members` table: group_id, user_id, status. -/
structure GroupMember where
  groupId : Nat
  userId : Nat
  status : MemberStatus
deriving DecidableEq

/-- Row of the `contributions` table: id, group_id, user_id, amount,
description, proof_image (NULL-able), status. -/
structure Contribution where
  id : Nat
  groupId : Nat
  userId : Nat
  amount : ℚ
  description : String
  proofImage : Option String
  status : ContribStatus
deriving DecidableEq

/-- Message templates inserted into the `notifications` table by the handlers,
one constructor per distinct template string in `app.py` (the rendered French
or English text interpolates usernames, group names and amounts; only the
template identity and the interpolated ids matter here). -/
inductive NotifMsg
  | joinRequestReceived (requester : Nat)
  | joinRequestPending
  | contributionUnderReview (contributor : Nat) (amount : ℚ)
  | contributionPosted (contributor : Nat) (amount : ℚ)
  | contributionApproved (amount : ℚ)
  | contributionRejected (amount : ℚ)
  | membershipApproved
  | membershipRejected
deriving DecidableEq

/-- Row of the `notifications` table: user_id, group_id, message (the is_read
flag, always FALSE on insert, is omitted: no modelled handler reads it). -/
structure Notification where
  userId : Nat
  groupId : Nat
  message : NotifMsg
deriving DecidableEq

/-- Database state: the four tables the modelled handlers touch.  List order
is insertion (rowid) order. -/
structure DB where
  groups : List SavingsGroup
  members : List GroupMember
  contributions : List Contribution
  notifications : List Notification
deriving DecidableEq

/-- Lookup `SELECT ... FROM groups WHERE id = ?` (first row). -/
def findGroup (db : DB) (gid : Nat) : Option SavingsGroup :=
  db.groups.find? fun g => decide (g.id = gid)

/-- Lookup `SELECT ... FROM groups WHERE invite_code = ?` (`join_group`,
app.py line 469). -/
def findGroupByCode (db : DB) (code : String) : Option SavingsGroup :=
  db.groups.find? fun g => decide (g.inviteCode = code)

/-- Lookup `SELECT ... FROM group_members WHERE group_id = ? AND user_id = ?`
with no status filter (`join_group` line 484, `export_group_data` line 877,
`api_group_progress` line 1085). -/
def findMembership (db : DB) (gid uid : Nat) : Option GroupMember :=
  db.members.find? fun m => decide (m.groupId = gid ∧ m.userId = uid)

/-- Check `SELECT id FROM group_members WHERE group_id = ? AND user_id = ? AND
status = 'active'` (`group_detail` line 594, `contribute` line 683). -/
def isActiveMember (db : DB) (gid uid : Nat) : Bool :=
  (db.members.find? fun m =>
    decide (m.groupId = gid ∧ m.userId = uid ∧ m.status = .active)).isSome

/-- Lookup used by `approve_member` (app.py line 1119): membership of the pair
with `status IN ('pending', 'rejected')`. -/
def findApprovableMembership (db : DB) (gid uid : Nat) : Option GroupMember :=
  db.members.find? fun m =>
    decide (m.groupId = gid ∧ m.userId = uid ∧
      (m.status = .pending ∨ m.status = .rejected))

/-- Lookup used by `reject_member` (app.py line 1165): membership of the pair
with `status = 'pending'`. -/
def findPendingMembership (db : DB) (gid uid : Nat) : Option GroupMember :=
  db.members.find? fun m =>
    decide (m.groupId = gid ∧ m.userId = uid ∧ m.status = .pending)

/-- Lookup used by `approve_contribution`/`reject_contribution` (app.py lines
777 and 831): contribution `WHERE id = ? AND group_id = ? AND status =
'pending'`. -/
def findPendingContribution (db : DB) (gid cid : Nat) : Option Contribution :=
  db.contributions.find? fun c =>
    decide (c.id = cid ∧ c.groupId = gid ∧ c.status = .pending)

/-- Update `UPDATE group_members SET status = ? WHERE group_id = ? AND
user_id = ?` (app.py lines 1128 and 1174). -/
def setMemberStatus (ms : List GroupMember) (gid uid : Nat) (st : MemberStatus) :
    List GroupMember :=
  ms.map fun m =>
    if m.groupId = gid ∧ m.userId = uid then ⟨m.groupId, m.userId, st⟩ else m

/-- Update `UPDATE contributions SET status = ? WHERE id = ?` (app.py lines
786 and 840). -/
def setContribStatus (cs : List Contribution) (cid : Nat) (st : ContribStatus) :
    List Contribution :=
  cs.map fun c =>
    if c.id = cid then
      ⟨c.id, c.groupId, c.userId, c.amount, c.description, c.proofImage, st⟩
    else c

/-- Sum `SELECT COALESCE(SUM(amount), 0) FROM contributions WHERE group_id = ?
AND status = "approved"` (`group_detail`, app.py line 634), with exact
rational arithmetic. -/
def totalApprovedContributions (db : DB) (gid : Nat) : ℚ :=
  ((db.contributions.filter fun c =>
    decide (c.groupId = gid ∧ c.status = .approved)).map Contribution.amount).sum

/-- Sum `SELECT COALESCE(SUM(amount), 0) FROM contributions WHERE group_id = ?`
(`api_group_progress`, app.py line 1092): note the missing status filter. -/
def totalContributionsAnyStatus (db : DB) (gid : Nat) : ℚ :=
  ((db.contributions.filter fun c =>
    decide (c.groupId = gid)).map Contribution.amount).sum

/-- Reply of the admin-only approve/reject handlers: HTTP 403, HTTP 404, or
the success JSON. -/
inductive AdminResp
  | unauthorized
  | notFound
  | success
deriving DecidableEq

/-- Denial message of `join_group` when a membership row already exists: one
constructor per branch of the status dispatch at app.py lines 488-494. -/
inductive JoinDeny
  | alreadyActive
  | awaitingApproval
  | wasRejected
deriving DecidableEq

/-- Reply of the `join_group` handler. -/
inductive JoinResp
  | invalidCode
  | alreadyMember (deny : JoinDeny)
  | success
deriving DecidableEq

/-- Reply of the `contribute` handler.  `internalError` stands for the
uncaught exception the source raises when the group row is missing (the
transaction is never committed, so the state is unchanged). -/
inductive ContribResp
  | notActiveMember
  | internalError
  | submitted (st : ContribStatus)
deriving DecidableEq

/-- Reply of the `export_group_data` handler. -/
inductive ExportResp
  | premiumRequired
  | notMember
  | groupMissing
  | rows (data : List Contribution)
deriving DecidableEq

/-- Status dispatch of `join_group` at app.py lines 488-494 choosing the
denial message (the source's final `else` branch is unreachable: the status
column only ever holds the three modelled values). -/
def joinDeny : MemberStatus → JoinDeny
  | .active => .alreadyActive
  | .pending => .awaitingApproval
  | .rejected => .wasRejected

/-- Handler `join_group` (app.py lines 455-528), POST branch: resolve the
invite code, refuse if any membership row exists for the pair, otherwise
insert a pending membership and notify the group creator and the requester. -/
def join_group (db : DB) (uid : Nat) (code : String) : DB × JoinResp :=
  match findGroupByCode db code with
  | none => (db, .invalidCode)
  | some g =>
    match findMembership db g.id uid with
    | some m => (db, .alreadyMember (joinDeny m.status))
    | none =>
      (⟨db.groups,
        db.members ++ [⟨g.id, uid, .pending⟩],
        db.contributions,
        db.notifications ++
          [⟨g.createdBy, g.id, .joinRequestReceived uid⟩,
           ⟨uid, g.id, .joinRequestPending⟩]⟩,
       .success)

/-- Handler `approve_member` (app.py lines 1105-1147): only the group creator
may act; the membership must be pending or rejected, else 404; on success the
pair's status becomes active and the affected user is notified. -/
def approve_member (db : DB) (acting gid uid : Nat) : DB × AdminResp :=
  match findGroup db gid with
  | none => (db, .unauthorized)
  | some g =>
    if g.createdBy ≠ acting then (db, .unauthorized)
    else
      match findApprovableMembership db gid uid with
      | none => (db, .notFound)
      | some _ =>
        (⟨db.groups,
          setMemberStatus db.members gid uid .active,
          db.contributions,
          db.notifications ++ [⟨uid, gid, .membershipApproved⟩]⟩,
         .success)

/-- Handler `reject_member` (app.py lines 1151-1193): only the group creator
may act; the membership must be exactly pending, else 404; on success the
pair's status becomes rejected and the affected user is notified. -/
def reject_member (db : DB) (acting gid uid : Nat) : DB × AdminResp :=
  match findGroup db gid with
  | none => (db, .unauthorized)
  | some g =>
    if g.createdBy ≠ acting then (db, .unauthorized)
    else
      match findPendingMembership db gid uid with
      | none => (db, .notFound)
      | some _ =>
        (⟨db.groups,
          setMemberStatus db.members gid uid .rejected,
          db.contributions,
          db.notifications ++ [⟨uid, gid, .membershipRejected⟩]⟩,
         .success)

/-- Handler `approve_contribution` (app.py lines 763-813): only the group
creator may act; the contribution must exist in the group with status
pending, else 404; on success its status becomes approved, the contributor is
notified, then every other active member except the actor is notified. -/
def approve_contribution (db : DB) (acting gid cid : Nat) : DB × AdminResp :=
  match findGroup db gid with
  | none => (db, .unauthorized)
  | some g =>
    if g.createdBy ≠ acting then (db, .unauthorized)
    else
      match findPendingContribution db gid cid with
      | none => (db, .notFound)
      | some c =>
        (⟨db.groups,
          db.members,
          setContribStatus db.contributions cid .approved,
          db.notifications ++
            [⟨c.userId, gid, .contributionApproved c.amount⟩] ++
            ((db.members.filter fun m =>
              decide (m.groupId = gid ∧ m.userId ≠ c.userId ∧ m.userId ≠ acting ∧
                m.status = .active)).map fun m =>
                  ⟨m.userId, gid, .contributionPosted c.userId c.amount⟩)⟩,
         .success)

/-- Handler `reject_contribution` (app.py lines 817-851): same authorization
and pending-state precondition as approval; on success the status becomes
rejected and only the contributor is notified. -/
def reject_contribution (db : DB) (acting gid cid : Nat) : DB × AdminResp :=
  match findGroup db gid with
  | none => (db, .unauthorized)
  | some g =>
    if g.createdBy ≠ acting then (db, .unauthorized)
    else
      match findPendingContribution db gid cid with
      | none => (db, .notFound)
      | some c =>
        (⟨db.groups,
          db.members,
          setContribStatus db.contributions cid .rejected,
          db.notifications ++
            [⟨c.userId, gid, .contributionRejected c.amount⟩]⟩,
         .success)

/-- Fresh id for an inserted contribution, modelling SQLite AUTOINCREMENT
(strictly larger than every existing id). -/
def nextContribId (db : DB) : Nat :=
  ((db.contributions.map Contribution.id).foldl max 0) + 1

/-- Handler `contribute` (app.py lines 673-751), POST branch: the caller must
be an active member; the new contribution starts pending when a proof image
is attached and approved otherwise; a pending contribution notifies the
admin, an auto-approved one notifies every other active member.  The source
performs no validation whatsoever on `amount`. -/
def contribute (db : DB) (uid gid : Nat) (amount : ℚ) (description : String)
    (proofImage : Option String) : DB × ContribResp :=
  if isActiveMember db gid uid then
    match findGroup db gid with
    | none => (db, .internalError)
    | some g =>
      if proofImage.isSome then
        (⟨db.groups, db.members,
          db.contributions ++
            [⟨nextContribId db, gid, uid, amount, description, proofImage, .pending⟩],
          db.notifications ++ [⟨g.createdBy, gid, .contributionUnderReview uid amount⟩]⟩,
         .submitted .pending)
      else
        (⟨db.groups, db.members,
          db.contributions ++
            [⟨nextContribId db, gid, uid, amount, description, proofImage, .approved⟩],
          db.notifications ++
            ((db.members.filter fun m =>
              decide (m.groupId = gid ∧ m.userId ≠ uid ∧ m.status = .active)).map
                fun m => ⟨m.userId, gid, .contributionPosted uid amount⟩)⟩,
         .submitted .approved)
  else (db, .notActiveMember)

/-- View data computed by `group_detail` (app.py lines 588-669) that the
claims mention: the approved total and the progress percentage. -/
structure GroupDetailView where
  totalContributed : ℚ
  progressPercentage : ℚ
deriving DecidableEq

/-- Handler `group_detail` (app.py lines 588-669): requires an active
membership; sums approved contributions only; progress percentage is
`total / target * 100` when `target > 0`, else `0` (line 661).  `none` covers
both the access redirect and the crash on a missing group row. -/
def group_detail (db : DB) (uid gid : Nat) : Option GroupDetailView :=
  if isActiveMember db gid uid then
    match findGroup db gid with
    | none => none
    | some g =>
      some ⟨totalApprovedContributions db gid,
        if g.targetAmount > 0 then
          totalApprovedContributions db gid / g.targetAmount * 100
        else 0⟩
  else none

/-- JSON payload of `api_group_progress` (app.py lines 1097-1101). -/
structure ProgressJson where
  target : ℚ
  contributed : ℚ
  percentage : ℚ
deriving DecidableEq

/-- Handler `api_group_progress` (app.py lines 1079-1101): requires a
membership row of any status; sums contributions of the group with NO status
filter (line 1092); percentage is `total / target * 100` when `target > 0`,
else `0`.  `none` covers the 403 and the crash on a missing group row. -/
def api_group_progress (db : DB) (uid gid : Nat) : Option ProgressJson :=
  if (findMembership db gid uid).isSome then
    match findGroup db gid with
    | none => none
    | some g =>
      some ⟨g.targetAmount, totalContributionsAnyStatus db gid,
        if g.targetAmount > 0 then
          totalContributionsAnyStatus db gid / g.targetAmount * 100
        else 0⟩
  else none

/-- Handler `export_group_data` (app.py lines 868-911): the premium gate is
the `premium_required` decorator; the membership check has NO status filter
(line 877); the exported rows are the group's contributions with NO status
filter (lines 886-892).  Row order in the CSV (by date, descending) is not
modelled; the returned list preserves table order. -/
def export_group_data (db : DB) (uid : Nat) (isPremium : Bool) (gid : Nat) :
    ExportResp :=
  if isPremium then
    if (findMembership db gid uid).isSome then
      match findGroup db gid with
      | none => .groupMissing
      | some _ => .rows (db.contributions.filter fun c => decide (c.groupId = gid))
    else .notMember
  else .premiumRequired

/-- Round a rational to the nearest integer, ties to even (the IEEE 754
default rounding used by Python floats). -/
def rne (x : ℚ) : ℤ :=
  if x - ⌊x⌋ < 1/2 then ⌊x⌋
  else if 1/2 < x - ⌊x⌋ then ⌊x⌋ + 1
  else if ⌊x⌋ % 2 = 0 then ⌊x⌋ else ⌊x⌋ + 1

/-- Binade search downwards: for `0 < q < 1`, the exponent `e ≤ 0` with
`2 ^ e ≤ q < 2 ^ (e + 1)` (fuel-bounded; 90 steps cover every magnitude a
currency amount can take). -/
def qlog2down : Nat → ℚ → ℤ
  | 0, _ => 0
  | fuel+1, q => if 1 ≤ q then 0 else qlog2down fuel (2 * q) - 1

/-- Binade search upwards: for `q ≥ 1`, the exponent `e ≥ 0` with
`2 ^ e ≤ q < 2 ^ (e + 1)` (fuel-bounded). -/
def qlog2up : Nat → ℚ → ℤ
  | 0, _ => 0
  | fuel+1, q => if q < 2 then 0 else qlog2up fuel (q / 2) + 1

/-- Floor of the base-2 logarithm of a positive rational. -/
def qlog2 (q : ℚ) : ℤ :=
  if q < 1 then qlog2down 90 q else qlog2up 90 q

/-- Integer power of two as a rational. -/
def qpow2 (e : ℤ) : ℚ :=
  if 0 ≤ e then 2 ^ e.natAbs else 1 / 2 ^ e.natAbs

/-- Scale factor placing a positive rational's binade at 52 fractional
significand bits. -/
def ulpScale (q : ℚ) : ℚ := qpow2 (52 - qlog2 q)

/-- Model of the IEEE 754 binary64 value nearest to a rational (Python
`float(q)`): round the significand to 53 bits, ties to even.  Exact for every
normal-range magnitude; overflow and subnormals, irrelevant for currency
amounts, are not modelled. -/
def toFloat64 (q : ℚ) : ℚ :=
  if q = 0 then 0
  else if q < 0 then -((rne (-q * ulpScale (-q)) : ℚ) / ulpScale (-q))
  else (rne (q * ulpScale q) : ℚ) / ulpScale q

/-- Python float addition: the exact rational sum, correctly rounded back to
binary64. -/
def floatAdd (a b : ℚ) : ℚ := toFloat64 (a + b)

/-- Python `sum(float(c) for c in data)`: convert each amount to a float and
fold float addition over the list starting from 0 (`database.py` line 322). -/
def pyFloatSum (xs : List ℚ) : ℚ :=
  xs.foldl (fun acc a => floatAdd acc (toFloat64 a)) 0

/-- Query `get_total_contributions` (database.py lines 313-323): fetch the
amounts of the group's contributions with the given status and sum them in
Python float arithmetic (`sum(float(c['amount']) for c in result.data)`). -/
def get_total_contributions (db : DB) (gid : Nat) (status : ContribStatus) : ℚ :=
  pyFloatSum ((db.contributions.filter fun c =>
    decide (c.groupId = gid ∧ c.status = status)).map Contribution.amount)

/-- Query `get_all_contributions_for_analytics` (database.py lines 325-334):
the group's approved contributions, in table order (the source orders by the
contribution timestamp, which insertion order models). -/
def get_all_contributions_for_analytics (db : DB) (gid : Nat) : List Contribution :=
  db.contributions.filter fun c => decide (c.groupId = gid ∧ c.status = .approved)

/-- Modelled from the spec: arithmetic mean of the amounts handled by the
Progress and Analytics Aggregator (section 4.3).  The aggregator itself is
not under src/; only its data fetcher `get_all_contributions_for_analytics`
is, so the statistic is taken from the spec's words. -/
def mean (xs : List ℚ) : ℚ :=
  if xs.length = 0 then 0 else xs.sum / (xs.length : ℚ)

/-- Insertion into a sorted list (ascending), auxiliary to `median`. -/
def insertSorted (x : ℚ) : List ℚ → List ℚ
  | [] => [x]
  | y :: ys => if x ≤ y then x :: y :: ys else y :: insertSorted x ys

/-- Insertion sort, ascending, auxiliary to `median`. -/
def sortAsc (xs : List ℚ) : List ℚ := xs.foldr insertSorted []

/-- Modelled from the spec: median of the amounts (section 4.3) — middle
element of the sorted list, or the average of the two middle elements for an
even count, 0 for an empty list. -/
def median (xs : List ℚ) : ℚ :=
  if xs.length = 0 then 0
  else if xs.length % 2 = 1 then (sortAsc xs).getD (xs.length / 2) 0
  else ((sortAsc xs).getD (xs.length / 2 - 1) 0 + (sortAsc xs).getD (xs.length / 2) 0) / 2

/-- Modelled from the spec: sample variance of the amounts (section 4.3:
"population/sample standard deviation ... undefined/0 if fewer than 2
samples"); the sample standard deviation is its square root. -/
def sampleVariance (xs : List ℚ) : ℚ :=
  if xs.length < 2 then 0
  else ((xs.map fun x => (x - mean xs) ^ 2).sum) / ((xs.length - 1 : ℕ) : ℚ)

/-- Sample group used by the concrete witnesses: id 1, target 100 MAD,
created by user 1. -/
def sampleGroup : SavingsGroup := ⟨1, "Voyage", 100, 1, "code1"⟩

/-- Sample state used by the concrete witnesses: group 1 with creator 1, an
active member 2, a pending requester 3, a rejected requester 4, and one
PENDING contribution of 50 MAD by member 2. -/
def sampleDB : DB :=
  ⟨[sampleGroup],
   [⟨1, 1, .active⟩, ⟨1, 2, .active⟩, ⟨1, 3, .pending⟩, ⟨1, 4, .rejected⟩],
   [⟨1, 1, 2, 50, "", some "p.png", .pending⟩],
   []⟩

/-- State whose group 1 has two approved contributions of 0.1 and 0.2 MAD,
exercising the float summation. -/
def centDB : DB :=
  ⟨[sampleGroup],
   [⟨1, 1, .active⟩],
   [⟨1, 1, 1, 1/10, "", none, .approved⟩, ⟨2, 1, 1, 2/10, "", none, .approved⟩],
   []⟩

/-- State whose group 1 has approved contributions of 100, 200 and 300 MAD
(plus a rejected one that analytics must ignore), for the statistics
example. -/
def statsDB : DB :=
  ⟨[sampleGroup],
   [⟨1, 1, .active⟩],
   [⟨1, 1, 1, 100, "", none, .approved⟩,
    ⟨2, 1, 1, 200, "", none, .approved⟩,
    ⟨3, 1, 1, 400, "", none, .rejected⟩,
    ⟨4, 1, 1, 300, "", none, .approved⟩],
   []⟩

/-- Auxiliary: a search that fails on a prefix continues in the suffix. -/
theorem find?_append_of_none {α : Type} (p : α → Bool) (l₁ l₂ : List α)
    (h : l₁.find? p = none) : (l₁ ++ l₂).find? p = l₂.find? p := by
  induction l₁ with
  | nil => rfl
  | cons a l ih =>
    cases hpa : p a with
    | true =>
      rw [List.find?_cons_of_pos _ hpa] at h
      exact absurd h (by simp)
    | false =>
      rw [List.find?_cons_of_neg _ (by rw [hpa]; exact Bool.false_ne_true)] at h
      rw [List.cons_append,
        List.find?_cons_of_neg _ (by rw [hpa]; exact Bool.false_ne_true)]
      exact ih h

/-- C5: every membership or contribution approve/reject request by a user who
is not the group's creator (or that names a nonexistent group) answers
Unauthorized and leaves the state — memberships, contributions and
notifications — unchanged. -/
theorem non_creator_unauthorized (db : DB) (acting gid x : Nat)
    (h : ∀ g, findGroup db gid = some g → g.createdBy ≠ acting) :
    approve_member db acting gid x = (db, .unauthorized)
    ∧ reject_member db acting gid x = (db, .unauthorized)
    ∧ approve_contribution db acting gid x = (db, .unauthorized)
    ∧ reject_contribution db acting gid x = (db, .unauthorized) := by
  cases hgf : findGroup db gid with
  | none =>
    simp [approve_member, reject_member, approve_contribution,
      reject_contribution, hgf]
  | some g =>
    have hne := h g hgf
    simp [approve_member, reject_member, approve_contribution,
      reject_contribution, hgf, hne]

/-- C5 witness: user 2 is not the creator of group 1 of the sample state, and
all four admin operations answer Unauthorized without touching the state. -/
theorem non_creator_unauthorized_witness :
    (∀ g, findGroup sampleDB 1 = some g → g.createdBy ≠ 2)
    ∧ (approve_member sampleDB 2 1 3 = (sampleDB, .unauthorized)
      ∧ reject_member sampleDB 2 1 3 = (sampleDB, .unauthorized)
      ∧ approve_contribution sampleDB 2 1 3 = (sampleDB, .unauthorized)
      ∧ reject_contribution sampleDB 2 1 3 = (sampleDB, .unauthorized)) := by
  have h : ∀ g, findGroup sampleDB 1 = some g → g.createdBy ≠ 2 := by
    intro g hg
    have hsg : findGroup sampleDB 1 = some sampleGroup := rfl
    rw [hsg] at hg
    cases hg
    decide
  exact ⟨h, non_creator_unauthorized sampleDB 2 1 3 h⟩

/-- C3: under the group's creator, `approve_member` transitions the pair's
membership to active exactly when its status is pending or rejected and
answers NotFound (state unchanged) otherwise, and `reject_member` transitions
to rejected exactly when the status is pending and answers NotFound (state
unchanged) otherwise — so the only transitions the operations perform are
pending to active, rejected to active, and pending to rejected. -/
theorem membership_transitions (db : DB) (acting gid uid : Nat) (g : SavingsGroup)
    (hg : findGroup db gid = some g) (ha : g.createdBy = acting) :
    (findApprovableMembership db gid uid = none →
        approve_member db acting gid uid = (db, .notFound))
    ∧ (∀ m, findApprovableMembership db gid uid = some m →
        (m.status = .pending ∨ m.status = .rejected)
        ∧ approve_member db acting gid uid =
            (⟨db.groups, setMemberStatus db.members gid uid .active, db.contributions,
              db.notifications ++ [⟨uid, gid, .membershipApproved⟩]⟩, .success))
    ∧ (findPendingMembership db gid uid = none →
        reject_member db acting gid uid = (db, .notFound))
    ∧ (∀ m, findPendingMembership db gid uid = some m →
        m.status = .pending
        ∧ reject_member db acting gid uid =
            (⟨db.groups, setMemberStatus db.members gid uid .rejected, db.contributions,
              db.notifications ++ [⟨uid, gid, .membershipRejected⟩]⟩, .success)) := by
  refine ⟨?_, ?_, ?_, ?_⟩
  · intro hnone
    simp [approve_member, hg, ha, hnone]
  · intro m hm
    refine ⟨?_, ?_⟩
    · rw [findApprovableMembership] at hm
      have hp := List.find?_some hm
      simp only [decide_eq_true_eq] at hp
      exact hp.2.2
    · simp [approve_member, hg, ha, hm]
  · intro hnone
    simp [reject_member, hg, ha, hnone]
  · intro m hm
    refine ⟨?_, ?_⟩
    · rw [findPendingMembership] at hm
      have hp := List.find?_some hm
      simp only [decide_eq_true_eq] at hp
      exact hp.2.2
    · simp [reject_member, hg, ha, hm]

/-- C3 witness: in the sample state (creator 1, pending requester 3) the
membership lookups resolve as required and the transition facts follow. -/
theorem membership_transitions_witness :
    (findGroup sampleDB 1 = some sampleGroup ∧ sampleGroup.createdBy = 1)
    ∧ ((findApprovableMembership sampleDB 1 3 = none →
        approve_member sampleDB 1 1 3 = (sampleDB, .notFound))
    ∧ (∀ m, findApprovableMembership sampleDB 1 3 = some m →
        (m.status = .pending ∨ m.status = .rejected)
        ∧ approve_member sampleDB 1 1 3 =
            (⟨sampleDB.groups, setMemberStatus sampleDB.members 1 3 .active,
              sampleDB.contributions,
              sampleDB.notifications ++ [⟨3, 1, .membershipApproved⟩]⟩, .success))
    ∧ (findPendingMembership sampleDB 1 3 = none →
        reject_member sampleDB 1 1 3 = (sampleDB, .notFound))
    ∧ (∀ m, findPendingMembership sampleDB 1 3 = some m →
        m.status = .pending
        ∧ reject_member sampleDB 1 1 3 =
            (⟨sampleDB.groups, setMemberStatus sampleDB.members 1 3 .rejected,
              sampleDB.contributions,
              sampleDB.notifications ++ [⟨3, 1, .membershipRejected⟩]⟩, .success))) :=
  ⟨⟨rfl, rfl⟩, membership_transitions sampleDB 1 1 3 sampleGroup rfl rfl⟩

/-- C6: when a membership row of any status already exists for the pair, a
join request answers the status-dependent AlreadyMember denial and leaves the
state unchanged (no membership row inserted, no notification emitted); the
three denial messages are pairwise distinct; and a second request right after
a successful one always fails with the pending-status denial. -/
theorem join_duplicate_membership_fails (db : DB) (uid : Nat) (code : String)
    (g : SavingsGroup) (hg : findGroupByCode db code = some g) :
    (∀ m, findMembership db g.id uid = some m →
        join_group db uid code = (db, .alreadyMember (joinDeny m.status)))
    ∧ (joinDeny .active ≠ joinDeny .pending ∧ joinDeny .active ≠ joinDeny .rejected
        ∧ joinDeny .pending ≠ joinDeny .rejected)
    ∧ (∀ db', join_group db uid code = (db', .success) →
        join_group db' uid code = (db', .alreadyMember (joinDeny .pending))) := by
  refine ⟨?_, ⟨by decide, by decide, by decide⟩, ?_⟩
  · intro m hm
    simp [join_group, hg, hm]
  · intro db' hsucc
    simp only [join_group, hg] at hsucc
    cases hmem : findMembership db g.id uid with
    | some m =>
      rw [hmem] at hsucc
      exact absurd (congrArg Prod.snd hsucc) (by simp)
    | none =>
      rw [hmem] at hsucc
      have hdb : db' =
          ⟨db.groups, db.members ++ [⟨g.id, uid, .pending⟩], db.contributions,
            db.notifications ++
              [⟨g.createdBy, g.id, .joinRequestReceived uid⟩,
               ⟨uid, g.id, .joinRequestPending⟩]⟩ := by
        have h1 := congrArg Prod.fst hsucc
        simpa using h1.symm
      subst hdb
      have hg2 : findGroupByCode
          (⟨db.groups, db.members ++ [⟨g.id, uid, .pending⟩], db.contributions,
            db.notifications ++
              [⟨g.createdBy, g.id, .joinRequestReceived uid⟩,
               ⟨uid, g.id, .joinRequestPending⟩]⟩ : DB) code = some g := hg
      have hmem2 : findMembership
          (⟨db.groups, db.members ++ [⟨g.id, uid, .pending⟩], db.contributions,
            db.notifications ++
              [⟨g.createdBy, g.id, .joinRequestReceived uid⟩,
               ⟨uid, g.id, .joinRequestPending⟩]⟩ : DB) g.id uid =
          some ⟨g.id, uid, .pending⟩ := by
        rw [findMembership]
        show (db.members ++ [(⟨g.id, uid, .pending⟩ : GroupMember)]).find? _ = _
        rw [find?_append_of_none _ _ _ (by exact hmem)]
        simp [List.find?]
      simp only [join_group, hg2, hmem2]
  
/-- C6 witness: user 4 holds a rejected membership of group 1 in the sample
state; the join request is denied with the rejected-status message and the
state is unchanged. -/
theorem join_duplicate_membership_fails_witness :
    (findGroupByCode sampleDB "code1" = some sampleGroup
      ∧ findMembership sampleDB 1 4 = some ⟨1, 4, .rejected⟩)
    ∧ join_group sampleDB 4 "code1" = (sampleDB, .alreadyMember (joinDeny .rejected)) := by
  have h := (join_duplicate_membership_fails sampleDB 4 "code1" sampleGroup rfl).1
    ⟨1, 4, .rejected⟩ rfl
  exact ⟨⟨rfl, rfl⟩, h⟩

/-- C2: a contribution submitted by an active member of an existing group
creates exactly one new contribution row, carrying the submitted amount and
proof reference, whose status is pending exactly when a proof reference is
attached and approved exactly when none is. -/
theorem contribution_status_iff_proof (db : DB) (uid gid : Nat) (amount : ℚ)
    (d : String) (pf : Option String) (g : SavingsGroup)
    (hm : isActiveMember db gid uid = true) (hg : findGroup db gid = some g) :
    ∃ c, (contribute db uid gid amount d pf).1.contributions = db.contributions ++ [c]
      ∧ c.amount = amount ∧ c.proofImage = pf
      ∧ (c.status = .pending ↔ pf.isSome = true)
      ∧ (c.status = .approved ↔ pf = none) := by
  cases pf with
  | some s =>
    refine ⟨⟨nextContribId db, gid, uid, amount, d, some s, .pending⟩,
      ?_, rfl, rfl, by simp, by simp⟩
    simp [contribute, hm, hg]
  | none =>
    refine ⟨⟨nextContribId db, gid, uid, amount, d, none, .approved⟩,
      ?_, rfl, rfl, by simp, by simp⟩
    simp [contribute, hm, hg]

/-- C2 witness: active member 2 submits 30 MAD with a proof reference in the
sample state; the created row is pending. -/
theorem contribution_status_iff_proof_witness :
    (isActiveMember sampleDB 1 2 = true ∧ findGroup sampleDB 1 = some sampleGroup)
    ∧ ∃ c, (contribute sampleDB 2 1 30 "d" (some "r.png")).1.contributions =
          sampleDB.contributions ++ [c]
        ∧ c.amount = 30 ∧ c.proofImage = some "r.png"
        ∧ (c.status = .pending ↔ (Option.some "r.png").isSome = true)
        ∧ (c.status = .approved ↔ (Option.some "r.png") = none) :=
  ⟨⟨rfl, rfl⟩, contribution_status_iff_proof sampleDB 2 1 30 "d" (some "r.png")
    sampleGroup rfl rfl⟩

/-- C7 (amended): the `contribute` handler applies no validation at all to
the amount: any rational amount, including zero and negatives, submitted by
an active member of an existing group is accepted (no InvalidAmount error
exists in the source) and a contribution row is created. -/
theorem contribute_no_amount_validation (db : DB) (uid gid : Nat) (amount : ℚ)
    (d : String) (pf : Option String) (g : SavingsGroup)
    (hm : isActiveMember db gid uid = true) (hg : findGroup db gid = some g) :
    (contribute db uid gid amount d pf).2 =
      .submitted (if pf.isSome then .pending else .approved)
    ∧ (contribute db uid gid amount d pf).1.contributions.length =
        db.contributions.length + 1 := by
  cases pf <;> simp [contribute, hm, hg]

/-- C7 counterexample: in the sample state the active member 2 submits the
non-positive amount -5; the source accepts it (response `submitted approved`)
and inserts a contribution row, instead of rejecting with an InvalidAmount
error and creating nothing. -/
theorem contribute_accepts_nonpositive_cex :
    (-5 : ℚ) ≤ 0
    ∧ (contribute sampleDB 2 1 (-5) "" none).2 = .submitted .approved
    ∧ (contribute sampleDB 2 1 (-5) "" none).1.contributions.length =
        sampleDB.contributions.length + 1 := by
  refine ⟨by norm_num, ?_, ?_⟩ <;>
    simp [contribute, sampleDB, sampleGroup, isActiveMember, findGroup,
      nextContribId, List.find?]

/-- C7 witness: instantiation of the amended claim at the non-positive
amount -7 submitted with a proof reference by active member 2. -/
theorem contribute_no_amount_validation_witness :
    (isActiveMember sampleDB 1 2 = true ∧ findGroup sampleDB 1 = some sampleGroup)
    ∧ ((contribute sampleDB 2 1 (-7) "x" (some "q.png")).2 =
        .submitted (if (Option.some "q.png").isSome then .pending else .approved)
      ∧ (contribute sampleDB 2 1 (-7) "x" (some "q.png")).1.contributions.length =
          sampleDB.contributions.length + 1) :=
  ⟨⟨rfl, rfl⟩, contribute_no_amount_validation sampleDB 2 1 (-7) "x" (some "q.png")
    sampleGroup rfl rfl⟩

/-- Auxiliary: after forcing every row with the given id to a non-pending
status, the pending-contribution lookup fails. -/
theorem findPendingContribution_set_none (cs : List Contribution) (gid cid : Nat)
    (st : ContribStatus) (hst : st ≠ .pending) (dbx : DB)
    (h : dbx.contributions = setContribStatus cs cid st) :
    findPendingContribution dbx gid cid = none := by
  rw [findPendingContribution, h, setContribStatus, List.find?_eq_none]
  intro x hx
  rw [List.mem_map] at hx
  obtain ⟨c, _, hcx⟩ := hx
  by_cases hid : c.id = cid
  · rw [if_pos hid] at hcx
    subst hcx
    simp [hst]
  · rw [if_neg hid] at hcx
    subst hcx
    simp [hid]

/-- Auxiliary: with the creator authorized but no pending contribution
matching, both admin contribution operations answer NotFound and return the
state unchanged. -/
theorem contribution_ops_notFound (db1 : DB) (acting gid cid : Nat)
    (g : SavingsGroup) (hg1 : findGroup db1 gid = some g) (ha : g.createdBy = acting)
    (hpc : findPendingContribution db1 gid cid = none) :
    approve_contribution db1 acting gid cid = (db1, .notFound)
    ∧ reject_contribution db1 acting gid cid = (db1, .notFound) := by
  constructor <;> simp [approve_contribution, reject_contribution, hg1, ha, hpc]

/-- C4: under the group's creator, approving or rejecting a contribution
succeeds exactly when a pending contribution with that id exists in the
group (else NotFound with the state unchanged); after a successful approve
or reject, a second approve or reject of the same contribution answers
NotFound and returns the state unchanged — no second transition, no second
notification batch. -/
theorem contribution_transition_once (db : DB) (acting gid cid : Nat)
    (g : SavingsGroup) (hg : findGroup db gid = some g) (ha : g.createdBy = acting) :
    (findPendingContribution db gid cid = none →
        approve_contribution db acting gid cid = (db, .notFound)
        ∧ reject_contribution db acting gid cid = (db, .notFound))
    ∧ (∀ c, findPendingContribution db gid cid = some c →
        (c ∈ db.contributions ∧ c.id = cid ∧ c.groupId = gid ∧ c.status = .pending)
        ∧ (approve_contribution db acting gid cid).2 = .success
        ∧ (reject_contribution db acting gid cid).2 = .success
        ∧ approve_contribution (approve_contribution db acting gid cid).1 acting gid cid =
            ((approve_contribution db acting gid cid).1, .notFound)
        ∧ reject_contribution (approve_contribution db acting gid cid).1 acting gid cid =
            ((approve_contribution db acting gid cid).1, .notFound)
        ∧ approve_contribution (reject_contribution db acting gid cid).1 acting gid cid =
            ((reject_contribution db acting gid cid).1, .notFound)
        ∧ reject_contribution (reject_contribution db acting gid cid).1 acting gid cid =
            ((reject_contribution db acting gid cid).1, .notFound)) := by
  constructor
  · intro hnone
    exact contribution_ops_notFound db acting gid cid g hg ha hnone
  · intro c hc
    have hcprop : c.id = cid ∧ c.groupId = gid ∧ c.status = .pending := by
      rw [findPendingContribution] at hc
      have hp := List.find?_some hc
      simpa using hp
    have hcmem : c ∈ db.contributions := by
      rw [findPendingContribution] at hc
      exact List.mem_of_find?_eq_some hc
    have happ : approve_contribution db acting gid cid =
        (⟨db.groups, db.members, setContribStatus db.contributions cid .approved,
          db.notifications ++
            [⟨c.userId, gid, .contributionApproved c.amount⟩] ++
            ((db.members.filter fun m =>
              decide (m.groupId = gid ∧ m.userId ≠ c.userId ∧ m.userId ≠ acting ∧
                m.status = .active)).map fun m =>
                  ⟨m.userId, gid, .contributionPosted c.userId c.amount⟩)⟩,
         .success) := by
      simp [approve_contribution, hg, ha, hc]
    have hrej : reject_contribution db acting gid cid =
        (⟨db.groups, db.members, setContribStatus db.contributions cid .rejected,
          db.notifications ++ [⟨c.userId, gid, .contributionRejected c.amount⟩]⟩,
         .success) := by
      simp [reject_contribution, hg, ha, hc]
    have hsecA := contribution_ops_notFound (approve_contribution db acting gid cid).1
      acting gid cid g (by rw [happ]; exact hg) ha
      (by
        rw [happ]
        exact findPendingContribution_set_none db.contributions gid cid .approved
          (by decide) _ rfl)
    have hsecR := contribution_ops_notFound (reject_contribution db acting gid cid).1
      acting gid cid g (by rw [hrej]; exact hg) ha
      (by
        rw [hrej]
        exact findPendingContribution_set_none db.contributions gid cid .rejected
          (by decide) _ rfl)
    exact ⟨⟨hcmem, hcprop⟩, by rw [happ], by rw [hrej],
      hsecA.1, hsecA.2, hsecR.1, hsecR.2⟩

/-- C4 witness: in the sample state the pending contribution 1 of group 1 is
found, the creator's approval succeeds, and a second approval of the same
contribution answers NotFound without changing the state. -/
theorem contribution_transition_once_witness :
    (findGroup sampleDB 1 = some sampleGroup ∧ sampleGroup.createdBy = 1
      ∧ findPendingContribution sampleDB 1 1 = some ⟨1, 1, 2, 50, "", some "p.png", .pending⟩)
    ∧ (approve_contribution sampleDB 1 1 1).2 = .success
    ∧ approve_contribution (approve_contribution sampleDB 1 1 1).1 1 1 1 =
        ((approve_contribution sampleDB 1 1 1).1, .notFound) := by
  have h := (contribution_transition_once sampleDB 1 1 1 sampleGroup rfl rfl).2
    ⟨1, 1, 2, 50, "", some "p.png", .pending⟩ rfl
  exact ⟨⟨rfl, rfl, rfl⟩, h.2.1, h.2.2.2.1⟩

/-- C1 (amended): the group-detail page computes the progress percentage as
(sum of APPROVED contribution amounts) / target times 100, while the progress
API endpoint computes it as (sum of contributions of EVERY status) / target
times 100; in both, the percentage is 0 whenever the target is not positive,
independent of the contributions. -/
theorem progress_percentage_formula (db : DB) (uid gid : Nat) (g : SavingsGroup)
    (hg : findGroup db gid = some g) :
    (∀ v, group_detail db uid gid = some v →
        v.progressPercentage =
          if g.targetAmount > 0 then
            totalApprovedContributions db gid / g.targetAmount * 100
          else 0)
    ∧ (∀ p, api_group_progress db uid gid = some p →
        p.percentage =
          if g.targetAmount > 0 then
            totalContributionsAnyStatus db gid / g.targetAmount * 100
          else 0)
    ∧ (g.targetAmount ≤ 0 →
        (∀ v, group_detail db uid gid = some v → v.progressPercentage = 0)
        ∧ (∀ p, api_group_progress db uid gid = some p → p.percentage = 0)) := by
  have h1 : ∀ v, group_detail db uid gid = some v →
      v.progressPercentage =
        if g.targetAmount > 0 then
          totalApprovedContributions db gid / g.targetAmount * 100
        else 0 := by
    intro v hv
    by_cases hact : isActiveMember db gid uid = true
    · simp only [group_detail, hact, if_true, hg] at hv
      cases hv
      rfl
    · rw [group_detail, if_neg hact] at hv
      exact absurd hv (by simp)
  have h2 : ∀ p, api_group_progress db uid gid = some p →
      p.percentage =
        if g.targetAmount > 0 then
          totalContributionsAnyStatus db gid / g.targetAmount * 100
        else 0 := by
    intro p hp
    by_cases hmem : (findMembership db gid uid).isSome = true
    · simp only [api_group_progress, hmem, if_true, hg] at hp
      cases hp
      rfl
    · rw [api_group_progress, if_neg hmem] at hp
      exact absurd hp (by simp)
  refine ⟨h1, h2, fun hle => ⟨fun v hv => ?_, fun p hp => ?_⟩⟩
  · rw [h1 v hv, if_neg (not_lt.mpr hle)]
  · rw [h2 p hp, if_neg (not_lt.mpr hle)]

/-- C1 counterexample: in the sample state, group 1 has target 100, no
approved contribution and one PENDING contribution of 50; the progress API
reports 50 percent for member 2, which differs from the approved-sum formula
value 0 — the endpoint sums contributions of every status. -/
theorem api_progress_counterexample :
    (api_group_progress sampleDB 2 1).map ProgressJson.percentage = some 50
    ∧ totalApprovedContributions sampleDB 1 / sampleGroup.targetAmount * 100 = 0
    ∧ (api_group_progress sampleDB 2 1).map ProgressJson.percentage ≠
        some (totalApprovedContributions sampleDB 1 / sampleGroup.targetAmount * 100) := by
  have e1 : (api_group_progress sampleDB 2 1).map ProgressJson.percentage = some 50 := by
    norm_num [api_group_progress, sampleDB, sampleGroup, findMembership, findGroup,
      totalContributionsAnyStatus, List.find?, List.filter, List.map]
  have e2 : totalApprovedContributions sampleDB 1 / sampleGroup.targetAmount * 100 = 0 := by
    norm_num [totalApprovedContributions, sampleDB, sampleGroup, List.filter, List.map]
  refine ⟨e1, e2, ?_⟩
  rw [e1, e2]
  norm_num

/-- C1 witness: instantiation of the amended formula statement at the sample
state, its group 1 and member 2. -/
theorem progress_percentage_formula_witness :
    findGroup sampleDB 1 = some sampleGroup
    ∧ ((∀ v, group_detail sampleDB 2 1 = some v →
        v.progressPercentage =
          if sampleGroup.targetAmount > 0 then
            totalApprovedContributions sampleDB 1 / sampleGroup.targetAmount * 100
          else 0)
    ∧ (∀ p, api_group_progress sampleDB 2 1 = some p →
        p.percentage =
          if sampleGroup.targetAmount > 0 then
            totalContributionsAnyStatus sampleDB 1 / sampleGroup.targetAmount * 100
          else 0)
    ∧ (sampleGroup.targetAmount ≤ 0 →
        (∀ v, group_detail sampleDB 2 1 = some v → v.progressPercentage = 0)
        ∧ (∀ p, api_group_progress sampleDB 2 1 = some p → p.percentage = 0))) :=
  ⟨rfl, progress_percentage_formula sampleDB 2 1 sampleGroup rfl⟩

/-- C10: the CSV export endpoint serves any premium user holding a membership
row of ANY status (its membership check carries no status filter), and the
exported rows are every contribution of the group regardless of contribution
status — pending and rejected amounts appear alongside approved ones. -/
theorem export_includes_all_statuses (db : DB) (uid gid : Nat)
    (m : GroupMember) (g : SavingsGroup)
    (hm : findMembership db gid uid = some m) (hg : findGroup db gid = some g) :
    export_group_data db uid true gid =
      .rows (db.contributions.filter fun c => decide (c.groupId = gid))
    ∧ ∀ c ∈ db.contributions, c.groupId = gid →
        c ∈ db.contributions.filter fun c => decide (c.groupId = gid) := by
  constructor
  · simp [export_group_data, hm, hg]
  · intro c hc hgid
    simp [List.mem_filter, hc, hgid]

/-- C10 witness: user 4 of the sample state holds only a REJECTED membership
of group 1 and is premium; the export succeeds and returns the group's
contribution rows, among them the PENDING contribution of 50. -/
theorem export_includes_all_statuses_witness :
    (findMembership sampleDB 1 4 = some ⟨1, 4, .rejected⟩
      ∧ findGroup sampleDB 1 = some sampleGroup)
    ∧ (export_group_data sampleDB 4 true 1 =
        .rows (sampleDB.contributions.filter fun c => decide (c.groupId = 1))
      ∧ ∀ c ∈ sampleDB.contributions, c.groupId = 1 →
          c ∈ sampleDB.contributions.filter fun c => decide (c.groupId = 1)) :=
  ⟨⟨rfl, rfl⟩, export_includes_all_statuses sampleDB 4 1 ⟨1, 4, .rejected⟩
    sampleGroup rfl rfl⟩

/-- C9: the analytics statistics (modelled from the spec, section 4.3, over
the approved amounts fetched by `get_all_contributions_for_analytics`) on the
amounts [100, 200, 300] yield mean 200, median 200, sample variance 10000 and
hence sample standard deviation 100. -/
theorem analytics_example_stats :
    (get_all_contributions_for_analytics statsDB 1).map Contribution.amount =
      [100, 200, 300]
    ∧ mean [100, 200, 300] = 200
    ∧ median [100, 200, 300] = 200
    ∧ sampleVariance [100, 200, 300] = 10000
    ∧ Real.sqrt ((sampleVariance [100, 200, 300] : ℚ) : ℝ) = 100 := by
  have hv : sampleVariance [100, 200, 300] = 10000 := by
    norm_num [sampleVariance, mean, List.sum_cons, List.sum_nil]
  refine ⟨?_, ?_, ?_, hv, ?_⟩
  · rfl
  · norm_num [mean, List.sum_cons, List.sum_nil]
  · norm_num [median, sortAsc, insertSorted, List.getD, List.sum_cons, List.sum_nil]
  · rw [hv]
    rw [show ((10000 : ℚ) : ℝ) = 100 ^ 2 by norm_num]
    rw [Real.sqrt_sq (by norm_num)]

/-- Auxiliary: the binary64 value of 0.1 is 7205759403792794 / 2^56, not
one tenth. -/
theorem toFloat64_tenth :
    toFloat64 (1/10) = 7205759403792794 / 72057594037927936 := by
  have h1 : ulpScale (1/10) = 72057594037927936 := by
    norm_num [ulpScale, qlog2, qlog2down, qpow2]
  rw [toFloat64, if_neg (by norm_num), if_neg (by norm_num), h1]
  have h3 : rne (1/10 * 72057594037927936) = 7205759403792794 := by norm_num [rne]
  rw [h3]
  norm_num

/-- Auxiliary: the binary64 value of 0.2 is 7205759403792794 / 2^55. -/
theorem toFloat64_fifth :
    toFloat64 (2/10) = 7205759403792794 / 36028797018963968 := by
  have h1 : ulpScale (2/10) = 36028797018963968 := by
    norm_num [ulpScale, qlog2, qlog2down, qpow2]
  rw [toFloat64, if_neg (by norm_num), if_neg (by norm_num), h1]
  have h3 : rne (2/10 * 36028797018963968) = 7205759403792794 := by norm_num [rne]
  rw [h3]
  norm_num

/-- Auxiliary: rounding is the identity on the representable value of 0.1. -/
theorem toFloat64_tenth_fixed :
    toFloat64 (7205759403792794 / 72057594037927936) =
      7205759403792794 / 72057594037927936 := by
  have h1 : ulpScale (7205759403792794 / 72057594037927936) = 72057594037927936 := by
    norm_num [ulpScale, qlog2, qlog2down, qpow2]
  rw [toFloat64, if_neg (by norm_num), if_neg (by norm_num), h1]
  have h3 : rne (7205759403792794 / 72057594037927936 * 72057594037927936) =
      7205759403792794 := by
    norm_num [rne]
  rw [h3]
  norm_num

/-- Auxiliary: float addition with a zero accumulator only rounds. -/
theorem floatAdd_zero (x : ℚ) : floatAdd 0 x = toFloat64 x := by
  rw [floatAdd, zero_add]

/-- Auxiliary: adding the binary64 values of 0.1 and 0.2 in binary64 lands on
1351079888211149 / 2^52 (the famous 0.30000000000000004), the round-half-even
tie going to the even significand. -/
theorem float_tenth_add_fifth :
    toFloat64 (7205759403792794 / 72057594037927936 +
        7205759403792794 / 36028797018963968) =
      1351079888211149 / 4503599627370496 := by
  have hx : (7205759403792794 / 72057594037927936 +
      7205759403792794 / 36028797018963968 : ℚ) =
      10808639105689191 / 36028797018963968 := by norm_num
  rw [hx]
  have h1 : ulpScale (10808639105689191 / 36028797018963968) = 18014398509481984 := by
    norm_num [ulpScale, qlog2, qlog2down, qpow2]
  rw [toFloat64, if_neg (by norm_num), if_neg (by norm_num), h1]
  have h3 : rne (10808639105689191 / 36028797018963968 * 18014398509481984) =
      5404319552844596 := by
    norm_num [rne]
  rw [h3]
  norm_num

/-- Auxiliary: the Python float sum of the amounts 0.1 and 0.2. -/
theorem pyFloatSum_tenth_fifth :
    pyFloatSum [1/10, 2/10] = 1351079888211149 / 4503599627370496 := by
  rw [pyFloatSum]
  simp only [List.foldl_cons, List.foldl_nil]
  rw [toFloat64_tenth, toFloat64_fifth, floatAdd_zero, toFloat64_tenth_fixed,
    floatAdd, float_tenth_add_fifth]

/-- Auxiliary: on the two-contribution state, `get_total_contributions`
reduces to the Python float sum of 0.1 and 0.2. -/
theorem get_total_contributions_centDB :
    get_total_contributions centDB 1 .approved = pyFloatSum [1/10, 2/10] := rfl

/-- C8 counterexample: on a group holding approved contributions of 0.1 and
0.2 MAD, `get_total_contributions` does NOT return the exact decimal sum 0.3:
the source converts each amount with `float(...)` and sums in binary64
arithmetic, so the total drifts. -/
theorem float_sum_drift_cex :
    get_total_contributions centDB 1 .approved ≠ 1/10 + 2/10 := by
  rw [get_total_contributions_centDB, pyFloatSum_tenth_fifth]
  norm_num

/-- C8 (amended): the contribution totals of `database.py` are computed in
binary floating point (Python `float`), not fixed-point or decimal
arithmetic, and are subject to floating-point drift: on approved amounts 0.1
and 0.2 the total is exactly 1351079888211149 / 2^52 — the binary64 value
0.30000000000000004 — which differs from the decimal sum 0.3. -/
theorem float_sum_binary64_value :
    get_total_contributions centDB 1 .approved = 1351079888211149 / 4503599627370496
    ∧ (1351079888211149 / 4503599627370496 : ℚ) ≠ 3/10 := by
  constructor
  · rw [get_total_contributions_centDB, pyFloatSum_tenth_fifth]
  · norm_num
